import Mathlib

/-!
Shallow embedding of the visit-counter core (src/lib/storage.js and
src/api/counter.js) and proofs about it.

Modelling conventions:
* JavaScript numbers that arise here are integers or NaN (`JsNum`);
  JSON numeric literals are modelled as integers (no floats occur in the core).
* Thrown JS errors become `Except.error` with a tag (`JsError`) recording
  which code path threw.
* `process.env` variables and request headers are `Option String`; JS string
  truthiness (`undefined` and `""` are falsy) is `jsStrTruthy`.
* The local counter file is modelled at the parse level (`FileState`):
  absent (ENOENT), unreadable (non-ENOENT I/O error), present but not valid
  JSON, or present with a parsed JSON document.  `JSON.parse`/`JSON.stringify`
  of the documents the code writes are identities at this level.
* The durable store holds at most one string for the single counter key
  (`Option String`); its REST `GET` endpoint's responses follow the wire
  contract (404 when absent, else a 200 JSON body with the value under
  `result`).  Write-time I/O faults and network faults are not modelled:
  the code's catch blocks only rethrow them.
-/

namespace VisitCounter

/-- ASCII whitespace characters skipped by `parseInt` / removed by `trim`
(model of ECMAScript white space restricted to ASCII). -/
def isSpaceChar (c : Char) : Bool :=
  c.toNat = 32 || c.toNat = 9 || c.toNat = 10 || c.toNat = 13 || c.toNat = 11 || c.toNat = 12

/-- Decimal digit characters, as `parseInt` with radix 10 accepts. -/
def isDigitChar (c : Char) : Bool :=
  48 ≤ c.toNat && c.toNat ≤ 57

/-- The decimal digit character for a digit value 0–9. -/
def jsDigitChar : Nat → Char
  | 0 => '0' | 1 => '1' | 2 => '2' | 3 => '3' | 4 => '4'
  | 5 => '5' | 6 => '6' | 7 => '7' | 8 => '8' | _ => '9'

/-- Decimal digit list of a natural number, most significant first
(fuel-indexed so that it is structurally recursive; `natDigits` supplies
enough fuel). -/
def natDigitsAux : Nat → Nat → List Char
  | 0, _ => []
  | fuel + 1, n =>
    if n < 10 then [jsDigitChar n]
    else natDigitsAux fuel (n / 10) ++ [jsDigitChar (n % 10)]

/-- Decimal digit list of a natural number, most significant first. -/
def natDigits (n : Nat) : List Char := natDigitsAux (n + 1) n

/-- Decimal string of a natural number (JS `Number.prototype.toString` on a
non-negative integer). -/
def natToString (n : Nat) : String := String.mk (natDigits n)

/-- Decimal string of an integer (JS `Number.prototype.toString` on an
integer). -/
def intToString (i : Int) : String :=
  if i < 0 then String.mk ('-' :: natDigits i.natAbs) else natToString i.toNat

/-- Value of a digit list under a left accumulator. -/
def digitsVal : List Char → Nat → Nat
  | [], acc => acc
  | c :: cs, acc => digitsVal cs (acc * 10 + (c.toNat - 48))

/-- Value of the leading digit span of a character list, `none` when there is
no leading digit (`parseInt` yields NaN then). -/
def digitSpan (cs : List Char) : Option Nat :=
  let ds := cs.takeWhile isDigitChar
  if ds.isEmpty then none else some (digitsVal ds 0)

/-- `parseInt(s, 10)` on an exploded string: skip leading white space, accept
an optional sign, read the leading digit span, ignore trailing characters. -/
def jsParseIntChars (cs : List Char) : Option Int :=
  if cs.head? = some '-' then (digitSpan cs.tail).map (fun n => -(n : Int))
  else if cs.head? = some '+' then (digitSpan cs.tail).map (fun n => (n : Int))
  else (digitSpan cs).map (fun n => (n : Int))

/-- JS `parseInt(s, 10)`; `none` models the NaN result. -/
def jsParseInt (s : String) : Option Int :=
  jsParseIntChars (s.data.dropWhile isSpaceChar)

/-- JSON values as produced by `JSON.parse`; numbers are restricted to the
integers, which are the only numbers the core reads or writes. -/
inductive Json where
  | null : Json
  | bool (b : Bool) : Json
  | num (i : Int) : Json
  | str (s : String) : Json
  | obj (fields : List (String × Json)) : Json

/-- JS truthiness of a defined JSON value. -/
def Json.truthy : Json → Bool
  | .null => false
  | .bool b => b
  | .num i => decide (i ≠ 0)
  | .str s => decide (s ≠ "")
  | .obj _ => true

/-- First binding of a key in a parsed-object field list. -/
def lookupField : List (String × Json) → String → Option Json
  | [], _ => none
  | (k, v) :: rest, key => if k = key then some v else lookupField rest key

/-- JS property access `data[key]`: `none` models `undefined`. -/
def Json.getField : Json → String → Option Json
  | .obj fields, key => lookupField fields key
  | _, _ => none

/-- JS string conversion of a value, as applied by `parseInt` to a
non-string argument. -/
def jsToString : Json → String
  | .null => "null"
  | .bool b => if b then "true" else "false"
  | .num i => intToString i
  | .str s => s
  | .obj _ => "[object Object]"

/-- JS `a || b` where `a` may be `undefined` (`none`). -/
def jsOrU (a : Option Json) (b : Json) : Json :=
  match a with
  | some v => if v.truthy then v else b
  | none => b

/-- A JS number as it occurs in the core: an integer or NaN. -/
inductive JsNum where
  | int (i : Int) : JsNum
  | nan : JsNum
deriving DecidableEq

/-- JS `toString` on a number. -/
def jsNumToString : JsNum → String
  | .int i => intToString i
  | .nan => "NaN"

/-- The JSON value `JSON.stringify` emits for a number
(`NaN` serializes as `null`). -/
def jsNumToJson : JsNum → Json
  | .int i => .num i
  | .nan => .null

/-- JS `x + 1` on a number. -/
def jsAdd1 : JsNum → JsNum
  | .int i => .int (i + 1)
  | .nan => .nan

/-- `parseInt(v, 10)` on a JS value, giving a number (possibly NaN). -/
def parseIntJs (v : Json) : JsNum :=
  match jsParseInt (jsToString v) with
  | some i => .int i
  | none => .nan

/-- Tags for the errors the storage layer can throw, recording which code
path threw. -/
inductive JsError where
  | parseError : JsError
  | fsError : JsError
  | httpError (status : Nat) : JsError
  | bodyParseError : JsError
deriving DecidableEq

/-- The environment variables `hasKVConfig` and the REST helpers read. -/
structure Env where
  kvRestApiUrl : Option String
  kvRestApiToken : Option String
  vercelRestApiUrl : Option String
  vercelRestApiToken : Option String

/-- JS truthiness of a possibly-undefined string (env var or header). -/
def jsStrTruthy : Option String → Bool
  | some s => decide (s ≠ "")
  | none => false

/-- `hasKVConfig()` from src/lib/storage.js: standard KV pair first, then the
custom REST pair. -/
def hasKVConfig (env : Env) : Bool :=
  if jsStrTruthy env.kvRestApiUrl && jsStrTruthy env.kvRestApiToken then true
  else if jsStrTruthy env.vercelRestApiUrl && jsStrTruthy env.vercelRestApiToken then true
  else false

/-- State of the local counter file, at the parse level. -/
inductive FileState where
  | absent : FileState
  | ioFault : FileState
  | invalid : FileState
  | valid (doc : Json) : FileState

/-- `readFromFile()` from src/lib/storage.js: ENOENT yields 0, any other
read error is rethrown, a `JSON.parse` failure is rethrown, and otherwise
the result is `parseInt(json.count || '0', 10)`. -/
def readFromFile : FileState → Except JsError JsNum
  | .absent => .ok (.int 0)
  | .ioFault => .error .fsError
  | .invalid => .error .parseError
  | .valid doc => .ok (parseIntJs (jsOrU (doc.getField "count") (.str "0")))

/-- `writeToFile(count)` from src/lib/storage.js: writes
`JSON.stringify({ count })` and returns `true`. -/
def writeToFile (count : JsNum) (_fs : FileState) : Except JsError (Bool × FileState) :=
  .ok (true, .valid (.obj [("count", jsNumToJson count)]))

/-- An HTTP response from the durable store, with its body at the parse
level (`none` models a body `response.json()` cannot parse). -/
structure RestResponse where
  status : Nat
  body : Option Json

/-- `readFromKVREST()` from src/lib/storage.js, as a function of the `GET`
response: 404 yields 0; any other non-2xx status throws; then the result is
`parseInt(data.result || data.value || '0', 10)`. -/
def readFromKVREST (resp : RestResponse) : Except JsError JsNum :=
  if resp.status = 404 then .ok (.int 0)
  else if resp.status < 200 ∨ 299 < resp.status then .error (.httpError resp.status)
  else
    match resp.body with
    | none => .error .bodyParseError
    | some data =>
      .ok (parseIntJs (jsOrU (data.getField "result") (jsOrU (data.getField "value") (.str "0"))))

/-- Wire-contract model of the durable store's `GET {endpoint}/get/{key}`
endpoint: 404 when the key is absent, else 200 with the stored string under
`result`. -/
def restGetResponse (kv : Option String) : RestResponse :=
  match kv with
  | none => { status := 404, body := some (.obj [("error", .str "not found")]) }
  | some v => { status := 200, body := some (.obj [("result", .str v)]) }

/-- `readFromKVSDK()` from src/lib/storage.js: `kv.get` yields the stored
string or `null`, and the result is `parseInt(value || '0', 10)`. -/
def readFromKVSDK (kv : Option String) : Except JsError JsNum :=
  let value : Json := match kv with | some s => .str s | none => .null
  .ok (parseIntJs (jsOrU (some value) (.str "0")))

/-- `writeToKVSDK(count)` from src/lib/storage.js: stores
`count.toString()` and returns `true`. -/
def writeToKVSDK (count : JsNum) (_kv : Option String) : Except JsError (Bool × Option String) :=
  .ok (true, some (jsNumToString count))

/-- `writeToKVREST(count)` from src/lib/storage.js: `POST`s
`JSON.stringify(count.toString())`, which the store decodes and keeps as the
string `count.toString()`; returns `true` on a 2xx response. -/
def writeToKVREST (count : JsNum) (_kv : Option String) : Except JsError (Bool × Option String) :=
  .ok (true, some (jsNumToString count))

/-- Whole-backend state: the environment, whether the `@vercel/kv` SDK was
loaded at module initialization, the durable store's content for the counter
key, and the local file. -/
structure World where
  env : Env
  sdkLoaded : Bool
  kv : Option String
  file : FileState

/-- `readFromKV()` from src/lib/storage.js: SDK when loaded, else REST. -/
def readFromKV (sdkLoaded : Bool) (kv : Option String) : Except JsError JsNum :=
  if sdkLoaded then readFromKVSDK kv else readFromKVREST (restGetResponse kv)

/-- `writeToKV(count)` from src/lib/storage.js: SDK when loaded, else REST. -/
def writeToKV (sdkLoaded : Bool) (count : JsNum) (kv : Option String) :
    Except JsError (Bool × Option String) :=
  if sdkLoaded then writeToKVSDK count kv else writeToKVREST count kv

/-- `getCount()` from src/lib/storage.js: the backend is chosen by
`hasKVConfig()` at call time. -/
def getCount (w : World) : Except JsError JsNum :=
  if hasKVConfig w.env then readFromKV w.sdkLoaded w.kv else readFromFile w.file

/-- `setCount(count)` from src/lib/storage.js: the backend is chosen by
`hasKVConfig()` at call time. -/
def setCount (count : JsNum) (w : World) : Except JsError (Bool × World) :=
  if hasKVConfig w.env then
    (writeToKV w.sdkLoaded count w.kv).map (fun p => (p.1, { w with kv := p.2 }))
  else
    (writeToFile count w.file).map (fun p => (p.1, { w with file := p.2 }))

/-- `increment()` from src/lib/storage.js:
`next = getCount() + 1; setCount(next); return next`. -/
def increment (w : World) : Except JsError (JsNum × World) :=
  match getCount w with
  | .error e => .error e
  | .ok current =>
    let next := jsAdd1 current
    match setCount next w with
    | .error e => .error e
    | .ok (_, w') => .ok (next, w')

/-- `k` sequential `increment()` calls, yielding the last returned value and
the final state (`0` increments yield the placeholder value 0). -/
def incSeq : Nat → World → Except JsError (JsNum × World)
  | 0, w => .ok (.int 0, w)
  | k + 1, w =>
    match incSeq k w with
    | .error e => .error e
    | .ok (_, w') => increment w'

/-- The in-memory `rateLimitMap`: insertion-ordered bindings of client
identifier to last stored timestamp. -/
abbrev RateMap := List (String × Int)

/-- `Map.get`. -/
def RateMap.get : RateMap → String → Option Int
  | [], _ => none
  | (k, v) :: rest, ip => if k = ip then some v else RateMap.get rest ip

/-- `Map.set`: replaces an existing binding in place, else appends. -/
def RateMap.set : RateMap → String → Int → RateMap
  | [], ip, t => [(ip, t)]
  | (k, v) :: rest, ip, t =>
    if k = ip then (k, t) :: rest else (k, v) :: RateMap.set rest ip t

/-- `RATE_LIMIT_WINDOW` from src/api/counter.js: one minute in ms. -/
def RATE_LIMIT_WINDOW : Int := 60 * 1000

/-- `shouldRateLimit(ip)` from src/api/counter.js with `Date.now()` passed
explicitly.  The code's absence check is `if (!lastRequest)`, so a stored
timestamp of exactly 0 is falsy and handled like a missing record. -/
def shouldRateLimit (ip : String) (now : Int) (m : RateMap) : Bool × RateMap :=
  match RateMap.get m ip with
  | none => (false, RateMap.set m ip now)
  | some lastRequest =>
    if lastRequest = 0 then (false, RateMap.set m ip now)
    else if now - lastRequest < RATE_LIMIT_WINDOW then (true, m)
    else (false, RateMap.set m ip now)

/-- The request metadata `getClientIP` reads. -/
structure Request where
  forwardedFor : Option String
  realIP : Option String
  remoteAddress : Option String

/-- `s.split(',')` on an exploded string. -/
def splitCommaAux : List Char → List Char → List (List Char)
  | [], acc => [acc.reverse]
  | c :: cs, acc =>
    if c = ',' then acc.reverse :: splitCommaAux cs [] else splitCommaAux cs (c :: acc)

/-- JS `String.prototype.trim` on an exploded string. -/
def jsTrimChars (cs : List Char) : List Char :=
  ((cs.dropWhile isSpaceChar).reverse.dropWhile isSpaceChar).reverse

/-- `getClientIP(req)` from src/api/counter.js: first comma-separated entry
of `x-forwarded-for`, else `x-real-ip`, else the socket address, else
`"unknown"`. -/
def getClientIP (req : Request) : String :=
  if jsStrTruthy req.forwardedFor then
    String.mk (jsTrimChars (((splitCommaAux (req.forwardedFor.getD "").data []).headD [])))
  else if jsStrTruthy req.realIP then
    req.realIP.getD ""
  else
    match req.remoteAddress with
    | some a => if a = "" then "unknown" else a
    | none => "unknown"

/-- What the handler produces: the HTTP status, the count handed to the SVG
renderer, and the updated admission map and backend state. -/
structure HandlerResult where
  status : Nat
  count : JsNum
  map : RateMap
  world : World

/-- The exported handler from src/api/counter.js: admission decision first,
then `getCount` (suppressed) or `increment` (admitted); on a storage error
the catch block serves status 500 with an error badge rendered from 0. -/
def handler (req : Request) (now : Int) (m : RateMap) (w : World) : HandlerResult :=
  let clientIP := getClientIP req
  let p := shouldRateLimit clientIP now m
  let isRateLimited := p.1
  let m' := p.2
  let result : Except JsError (JsNum × World) :=
    if isRateLimited then (getCount w).map (fun c => (c, w)) else increment w
  match result with
  | .ok (c, w') => { status := 200, count := c, map := m', world := w' }
  | .error _ => { status := 500, count := .int 0, map := m', world := w }

/-- An environment with no durable-store configuration. -/
def envNone : Env := ⟨none, none, none, none⟩

/-- Fresh local-file backend: no configuration, no file yet. -/
def freshFileWorld : World := ⟨envNone, false, none, .absent⟩

/-- A request whose `x-forwarded-for` header is `1.2.3.4`. -/
def reqDot : Request := ⟨some "1.2.3.4", none, none⟩

/-- Local-file backend whose counter file exists but is not valid JSON, so
every read of it fails. -/
def corruptFileWorld : World := ⟨envNone, false, none, .invalid⟩

/-! ### Decimal rendering and `parseInt` round-trip -/

theorem digitsVal_append (xs ys : List Char) (acc : Nat) :
    digitsVal (xs ++ ys) acc = digitsVal ys (digitsVal xs acc) := by
  induction xs generalizing acc with
  | nil => rfl
  | cons c cs ih => simp [digitsVal, ih]

theorem jsDigitChar_toNat (d : Nat) (hd : d < 10) : (jsDigitChar d).toNat = 48 + d := by
  interval_cases d <;> decide

theorem isDigitChar_jsDigitChar (d : Nat) (hd : d < 10) : isDigitChar (jsDigitChar d) = true := by
  interval_cases d <;> decide

theorem natDigitsAux_spec : ∀ fuel n, n < fuel →
    (∀ acc, digitsVal (natDigitsAux fuel n) acc = acc * 10 ^ (natDigitsAux fuel n).length + n) ∧
    natDigitsAux fuel n ≠ [] ∧
    (∀ c ∈ natDigitsAux fuel n, isDigitChar c = true) := by
  intro fuel
  induction fuel with
  | zero => intro n h; omega
  | succ fuel ih =>
    intro n hn
    by_cases h10 : n < 10
    · refine ⟨?_, ?_, ?_⟩
      · intro acc
        simp [natDigitsAux, h10, digitsVal, jsDigitChar_toNat n h10]
      · simp [natDigitsAux, h10]
      · intro c hc
        simp [natDigitsAux, h10] at hc
        subst hc
        exact isDigitChar_jsDigitChar n h10
    · have hlt : n / 10 < fuel := by omega
      obtain ⟨ihv, ihne, ihd⟩ := ih (n / 10) hlt
      have hrw : natDigitsAux (fuel + 1) n =
          natDigitsAux fuel (n / 10) ++ [jsDigitChar (n % 10)] := by
        simp [natDigitsAux, h10]
      refine ⟨?_, ?_, ?_⟩
      · intro acc
        rw [hrw, digitsVal_append, ihv acc]
        simp [digitsVal, jsDigitChar_toNat (n % 10) (by omega)]
        rw [pow_succ, ← mul_assoc]
        generalize acc * 10 ^ (natDigitsAux fuel (n / 10)).length = B
        omega
      · rw [hrw]; simp
      · intro c hc
        rw [hrw] at hc
        rcases List.mem_append.mp hc with h | h
        · exact ihd c h
        · simp at h
          subst h
          exact isDigitChar_jsDigitChar (n % 10) (by omega)

theorem natDigits_spec (n : Nat) :
    (∀ acc, digitsVal (natDigits n) acc = acc * 10 ^ (natDigits n).length + n) ∧
    natDigits n ≠ [] ∧ (∀ c ∈ natDigits n, isDigitChar c = true) :=
  natDigitsAux_spec (n + 1) n (Nat.lt_succ_self n)

theorem takeWhile_of_all {p : Char → Bool} :
    ∀ l : List Char, (∀ c ∈ l, p c = true) → l.takeWhile p = l := by
  intro l h
  induction l with
  | nil => rfl
  | cons c cs ih =>
    rw [List.takeWhile_cons, h c (by simp)]
    simp [ih (fun x hx => h x (by simp [hx]))]

theorem digitSpan_natDigits (n : Nat) : digitSpan (natDigits n) = some n := by
  obtain ⟨hv, hne, hd⟩ := natDigits_spec n
  unfold digitSpan
  rw [takeWhile_of_all _ hd]
  have hemp : (natDigits n).isEmpty = false := by
    cases h : natDigits n with
    | nil => exact absurd h hne
    | cons c cs => rfl
  simp only [hemp, Bool.false_eq_true, if_false]
  have := hv 0
  simpa using this

theorem isSpaceChar_of_digit (c : Char) (h : isDigitChar c = true) :
    isSpaceChar c = false := by
  simp only [isDigitChar, Bool.and_eq_true, decide_eq_true_eq] at h
  simp only [isSpaceChar, Bool.or_eq_false_iff, decide_eq_false_iff_not]
  omega

theorem jsParseInt_natToString (n : Nat) : jsParseInt (natToString n) = some (n : Int) := by
  obtain ⟨hv, hne, hd⟩ := natDigits_spec n
  obtain ⟨c, cs, hcons⟩ := List.exists_cons_of_ne_nil hne
  have hcd : isDigitChar c = true := hd c (by rw [hcons]; simp)
  unfold jsParseInt natToString
  rw [show (String.mk (natDigits n)).data = natDigits n from rfl, hcons,
    List.dropWhile_cons]
  rw [isSpaceChar_of_digit c hcd]
  simp only [Bool.false_eq_true, if_false]
  unfold jsParseIntChars
  have hne1 : c ≠ '-' := by
    intro h; rw [h] at hcd; exact absurd hcd (by decide)
  have hne2 : c ≠ '+' := by
    intro h; rw [h] at hcd; exact absurd hcd (by decide)
  rw [if_neg (by simp [hne1]), if_neg (by simp [hne2]), ← hcons, digitSpan_natDigits]
  rfl

theorem intToString_ofNat (n : Nat) : intToString (n : Int) = natToString n := by
  unfold intToString
  rw [if_neg (by omega)]
  congr 1

theorem jsParseInt_intToString (i : Int) : jsParseInt (intToString i) = some i := by
  rcases Int.lt_or_le i 0 with hneg | hpos
  · unfold intToString
    rw [if_pos hneg]
    unfold jsParseInt
    rw [show (String.mk ('-' :: natDigits i.natAbs)).data = '-' :: natDigits i.natAbs from rfl,
      List.dropWhile_cons]
    rw [show isSpaceChar '-' = false from by decide]
    simp only [Bool.false_eq_true, if_false]
    unfold jsParseIntChars
    rw [if_pos (by simp)]
    simp only [List.tail_cons]
    rw [digitSpan_natDigits]
    show some (-(i.natAbs : Int)) = some i
    congr 1
    omega
  · unfold intToString
    rw [if_neg (by omega), jsParseInt_natToString]
    congr 1
    omega

theorem intToString_ne_empty (i : Int) : intToString i ≠ "" := by
  unfold intToString
  split
  · intro h
    have := congrArg String.data h
    simp at this
  · unfold natToString
    obtain ⟨_, hne, _⟩ := natDigits_spec i.toNat
    intro h
    have := congrArg String.data h
    simp at this
    exact hne this

theorem parseIntJs_str_intToString (i : Int) :
    parseIntJs (.str (intToString i)) = .int i := by
  simp [parseIntJs, jsToString, jsParseInt_intToString]

theorem parseIntJs_num (i : Int) : parseIntJs (.num i) = .int i := by
  simp [parseIntJs, jsToString, jsParseInt_intToString]

/-! ### Storage round-trip -/

theorem readFromKV_stored (sdk : Bool) (i : Int) :
    readFromKV sdk (some (intToString i)) = .ok (.int i) := by
  have hne := intToString_ne_empty i
  cases sdk with
  | true =>
    simp [readFromKV, readFromKVSDK, jsOrU, Json.truthy, hne, parseIntJs_str_intToString]
  | false =>
    simp [readFromKV, restGetResponse, readFromKVREST, Json.getField, lookupField,
      jsOrU, Json.truthy, hne, parseIntJs_str_intToString]

theorem readFromFile_written (i : Int) :
    readFromFile (.valid (.obj [("count", .num i)])) = .ok (.int i) := by
  by_cases h0 : i = 0
  · subst h0; rfl
  · simp [readFromFile, Json.getField, lookupField, jsOrU, Json.truthy, h0, parseIntJs_num]

theorem getCount_after_setCount (i : Int) (w w' : World) (b : Bool)
    (h : setCount (.int i) w = .ok (b, w')) : getCount w' = .ok (.int i) := by
  by_cases hkv : hasKVConfig w.env
  · have hw : w' = { w with kv := some (intToString i) } := by
      cases hsdk : w.sdkLoaded <;>
        simp [setCount, hkv, writeToKV, hsdk, writeToKVSDK, writeToKVREST,
          jsNumToString, Except.map] at h <;>
        exact h.2.symm
    subst hw
    simp only [getCount]
    rw [if_pos (by simpa using hkv)]
    exact readFromKV_stored w.sdkLoaded i
  · have hw : w' = { w with file := .valid (.obj [("count", .num i)]) } := by
      simp [setCount, hkv, writeToFile, jsNumToJson, Except.map] at h
      exact h.2.symm
    subst hw
    simp only [getCount]
    rw [if_neg (by simpa using hkv)]
    exact readFromFile_written i

theorem setCount_always_ok (c : JsNum) (w : World) :
    ∃ w', setCount c w = .ok (true, w') := by
  by_cases hkv : hasKVConfig w.env
  · refine ⟨{ w with kv := some (jsNumToString c) }, ?_⟩
    cases hsdk : w.sdkLoaded <;>
      simp [setCount, hkv, writeToKV, hsdk, writeToKVSDK, writeToKVREST, Except.map]
  · refine ⟨{ w with file := .valid (.obj [("count", jsNumToJson c)]) }, ?_⟩
    simp [setCount, hkv, writeToFile, Except.map]

theorem increment_step (w : World) (i : Int) (h : getCount w = .ok (.int i)) :
    ∃ w', increment w = .ok (.int (i + 1), w') ∧ getCount w' = .ok (.int (i + 1)) := by
  obtain ⟨w', hset⟩ := setCount_always_ok (.int (i + 1)) w
  refine ⟨w', ?_, getCount_after_setCount (i + 1) w w' true hset⟩
  simp only [increment, h, jsAdd1]
  rw [hset]

/-! ### Claims -/

/-- C1 counterexample: with the local-file backend, a present counter file
whose content is valid JSON but carries no integer counter (the empty
object) makes `getCount()` silently return 0 — it does not fail with a
`CorruptState` error as the claim states. -/
theorem c1_counterexample :
    getCount ⟨envNone, false, none, .valid (.obj [])⟩ = .ok (.int 0) := rfl

/-- C1 amended: for the local-file backend, a present counter file that is
not valid JSON makes `getCount()` fail with the JSON-parse (`CorruptState`)
error; but a present file that is valid JSON without a usable integer
counter does not fail: a missing (or falsy) `count` field silently yields 0
and a non-numeric `count` string yields NaN. -/
theorem c1_corrupt_file (w : World) (hkv : hasKVConfig w.env = false) :
    (w.file = .invalid → getCount w = .error .parseError) ∧
    (w.file = .valid (.obj []) → getCount w = .ok (.int 0)) ∧
    (w.file = .valid (.obj [("count", .str "abc")]) → getCount w = .ok .nan) := by
  refine ⟨?_, ?_, ?_⟩ <;>
    · intro hf
      simp only [getCount, hkv, Bool.false_eq_true, if_false]
      rw [hf]
      rfl

/-- Witness for C1 at the two concrete file states. -/
theorem c1_corrupt_file_witness :
    getCount corruptFileWorld = .error .parseError ∧
    getCount ⟨envNone, false, none, .valid (.obj [("count", .str "abc")])⟩ = .ok .nan :=
  ⟨(c1_corrupt_file corruptFileWorld rfl).1 rfl,
   (c1_corrupt_file ⟨envNone, false, none, .valid (.obj [("count", .str "abc")])⟩ rfl).2.2 rfl⟩

/-- C2 counterexample: a 200 response whose JSON body is the empty object
carries no counter value, yet `readFromKVREST` returns the success value 0
instead of failing with a `BackendUnavailable` error as the claim states. -/
theorem c2_counterexample :
    readFromKVREST { status := 200, body := some (.obj []) } = .ok (.int 0) := rfl

/-- C2 amended: the durable-store read fails when the response status is
neither 404 nor 2xx, or when a 2xx body is not valid JSON; HTTP 404 yields
the success value 0; but a 2xx response whose JSON body lacks a truthy
`result` or `value` field also silently yields 0 (and a non-numeric stored
value yields NaN) rather than an error. -/
theorem c2_malformed_response (s : Nat) (body : Option Json) :
    (s ≠ 404 → s < 200 ∨ 299 < s → readFromKVREST ⟨s, body⟩ = .error (.httpError s)) ∧
    (200 ≤ s → s ≤ 299 → readFromKVREST ⟨s, none⟩ = .error .bodyParseError) ∧
    readFromKVREST ⟨404, body⟩ = .ok (.int 0) ∧
    readFromKVREST ⟨200, some (.obj [("foo", .str "x")])⟩ = .ok (.int 0) ∧
    readFromKVREST ⟨200, some (.obj [("result", .str "zzz")])⟩ = .ok .nan := by
  refine ⟨?_, ?_, ?_, rfl, rfl⟩
  · intro h404 hbad
    simp only [readFromKVREST]
    rw [if_neg h404, if_pos hbad]
  · intro h1 h2
    simp only [readFromKVREST]
    rw [if_neg (by omega), if_neg (by omega)]
  · rfl

/-- Witness for C2 at a 500 response and an unparsable 200 body. -/
theorem c2_malformed_response_witness :
    readFromKVREST ⟨500, none⟩ = .error (.httpError 500) ∧
    readFromKVREST ⟨200, none⟩ = .error .bodyParseError :=
  ⟨(c2_malformed_response 500 none).1 (by decide) (by decide),
   (c2_malformed_response 200 none).2.1 (by decide) (by decide)⟩

/-- C4 counterexample: an identifier with a stored timestamp of exactly 0 is
1 ms into the window at t = 1, yet the code admits the request and resets
the timestamp (the `!lastRequest` check treats 0 as missing) instead of
suppressing as the claim states. -/
theorem c4_counterexample :
    shouldRateLimit "a" 1 [("a", 0)] = (false, [("a", 1)]) := rfl

/-- C4 amended: with no record, ADMIT and create the record at t; with a
record whose timestamp is exactly 0 (falsy in JS), the record is treated as
missing: ADMIT and reset to t; with a record at t0 ≠ 0, ADMIT and update
when t - t0 ≥ 60000 ms (inclusive at the boundary), else SUPPRESS.  Here
`false` is ADMIT and `true` is SUPPRESS. -/
theorem c4_admission (ip : String) (t : Int) (m : RateMap) :
    (RateMap.get m ip = none → shouldRateLimit ip t m = (false, RateMap.set m ip t)) ∧
    (∀ t0 : Int, RateMap.get m ip = some t0 → t0 = 0 →
      shouldRateLimit ip t m = (false, RateMap.set m ip t)) ∧
    (∀ t0 : Int, RateMap.get m ip = some t0 → t0 ≠ 0 → t - t0 ≥ RATE_LIMIT_WINDOW →
      shouldRateLimit ip t m = (false, RateMap.set m ip t)) ∧
    (∀ t0 : Int, RateMap.get m ip = some t0 → t0 ≠ 0 → t - t0 < RATE_LIMIT_WINDOW →
      shouldRateLimit ip t m = (true, m)) := by
  refine ⟨?_, ?_, ?_, ?_⟩
  · intro h
    simp only [shouldRateLimit, h]
  · intro t0 h h0
    simp only [shouldRateLimit, h]
    rw [if_pos h0]
  · intro t0 h h0 hw
    simp only [shouldRateLimit, h]
    rw [if_neg h0, if_neg (Int.not_lt.mpr hw)]
  · intro t0 h h0 hw
    simp only [shouldRateLimit, h]
    rw [if_neg h0, if_pos hw]

/-- Witness for C4: a request 49999 ms after a nonzero admitted timestamp is
suppressed with the map unchanged. -/
theorem c4_admission_witness :
    shouldRateLimit "a" 50000 [("a", 1)] = (true, [("a", 1)]) :=
  (c4_admission "a" 50000 [("a", 1)]).2.2.2 1 rfl (by decide) (by decide)

/-- C5: a SUPPRESS outcome returns the admission map entirely unchanged (the
window stays anchored to the last admitted timestamp), and an identifier
admitted at t0 whose call at t0 + 30 s is suppressed is still suppressed at
t0 + 59 s. -/
theorem c5_suppress_frame :
    (∀ (ip : String) (now : Int) (m : RateMap),
      (shouldRateLimit ip now m).1 = true → (shouldRateLimit ip now m).2 = m) ∧
    (∀ (ip : String) (t0 : Int),
      (shouldRateLimit ip (t0 + 30000) (shouldRateLimit ip t0 []).2).1 = true →
      (shouldRateLimit ip (t0 + 59000)
        (shouldRateLimit ip (t0 + 30000) (shouldRateLimit ip t0 []).2).2).1 = true) := by
  constructor
  · intro ip now m h
    cases hg : RateMap.get m ip with
    | none => simp [shouldRateLimit, hg] at h
    | some t0 =>
      by_cases h0 : t0 = 0
      · simp [shouldRateLimit, hg, h0] at h
      · by_cases hlt : now - t0 < RATE_LIMIT_WINDOW
        · simp only [shouldRateLimit, hg, if_neg h0, if_pos hlt]
        · simp [shouldRateLimit, hg, h0, hlt] at h
  · intro ip t0 h30
    have h1 : (shouldRateLimit ip t0 []).2 = [(ip, t0)] := by
      simp [shouldRateLimit, RateMap.get, RateMap.set]
    rw [h1] at h30 ⊢
    have hg : RateMap.get [(ip, t0)] ip = some t0 := by simp [RateMap.get]
    have h0 : t0 ≠ 0 := by
      intro h0
      subst h0
      simp [shouldRateLimit, hg] at h30
    have h30eq : shouldRateLimit ip (t0 + 30000) [(ip, t0)] = (true, [(ip, t0)]) := by
      simp only [shouldRateLimit, hg, if_neg h0]
      rw [if_pos (by unfold RATE_LIMIT_WINDOW; omega)]
    rw [h30eq]
    simp only [shouldRateLimit, hg, if_neg h0]
    rw [if_pos (by unfold RATE_LIMIT_WINDOW; omega)]

/-- Witness for C5: concrete suppressed call leaves the map unchanged, and
the 30 s / 59 s scenario at t0 = 1000 stays suppressed. -/
theorem c5_suppress_frame_witness :
    (shouldRateLimit "a" 30000 [("a", 1000)]).2 = [("a", 1000)] ∧
    (shouldRateLimit "a" (1000 + 59000)
      (shouldRateLimit "a" (1000 + 30000) (shouldRateLimit "a" 1000 []).2).2).1 = true :=
  ⟨c5_suppress_frame.1 "a" 30000 [("a", 1000)] rfl,
   c5_suppress_frame.2 "a" 1000 rfl⟩

/-- C3 counterexample: fresh state, identifier 1.2.3.4, three requests at
the absolute times t = 0 ms, 10000 ms, 70000 ms: the timestamp 0 stored by
the first admission is falsy, so the second request is admitted as well and
the counts are 1, 2, 3 — not 1, 1, 2 as the claim states. -/
theorem c3_counterexample :
    (let r1 := handler reqDot 0 [] freshFileWorld
     let r2 := handler reqDot 10000 r1.map r1.world
     let r3 := handler reqDot 70000 r2.map r2.world
     r1.count = .int 1 ∧ r2.count = .int 2 ∧ r3.count = .int 3) :=
  ⟨rfl, rfl, rfl⟩

/-- C3 amended: the end-to-end scenario holds at every base time other than
the epoch itself: from fresh state, requests from 1.2.3.4 at T0, T0 + 10 s,
T0 + 70 s with T0 ≠ 0 yield counts 1, 1 (suppressed, read-only), 2 (window
elapsed, admitted).  At T0 = 0 exactly, the stored timestamp 0 is falsy and
the second request is admitted (see the counterexample). -/
theorem c3_scenario (T0 : Int) (hT0 : T0 ≠ 0) :
    (let r1 := handler reqDot T0 [] freshFileWorld
     let r2 := handler reqDot (T0 + 10000) r1.map r1.world
     let r3 := handler reqDot (T0 + 70000) r2.map r2.world
     r1.count = .int 1 ∧ r2.count = .int 1 ∧ r3.count = .int 2) := by
  have h1 : handler reqDot T0 [] freshFileWorld =
      ⟨200, .int 1, [("1.2.3.4", T0)],
        ⟨envNone, false, none, .valid (.obj [("count", .num 1)])⟩⟩ := rfl
  have hg : RateMap.get [("1.2.3.4", T0)] "1.2.3.4" = some T0 := by simp [RateMap.get]
  have hsr2 : shouldRateLimit "1.2.3.4" (T0 + 10000) [("1.2.3.4", T0)] =
      (true, [("1.2.3.4", T0)]) := by
    simp only [shouldRateLimit, hg, if_neg hT0]
    rw [if_pos (by unfold RATE_LIMIT_WINDOW; omega)]
  have h2 : handler reqDot (T0 + 10000) [("1.2.3.4", T0)]
      ⟨envNone, false, none, .valid (.obj [("count", .num 1)])⟩ =
      ⟨200, .int 1, [("1.2.3.4", T0)],
        ⟨envNone, false, none, .valid (.obj [("count", .num 1)])⟩⟩ := by
    simp only [handler]
    rw [show getClientIP reqDot = "1.2.3.4" from rfl, hsr2]
    rfl
  have hsr3 : shouldRateLimit "1.2.3.4" (T0 + 70000) [("1.2.3.4", T0)] =
      (false, [("1.2.3.4", T0 + 70000)]) := by
    simp only [shouldRateLimit, hg, if_neg hT0]
    rw [if_neg (by unfold RATE_LIMIT_WINDOW; omega)]
    simp [RateMap.set]
  have h3 : handler reqDot (T0 + 70000) [("1.2.3.4", T0)]
      ⟨envNone, false, none, .valid (.obj [("count", .num 1)])⟩ =
      ⟨200, .int 2, [("1.2.3.4", T0 + 70000)],
        ⟨envNone, false, none, .valid (.obj [("count", .num 2)])⟩⟩ := by
    simp only [handler]
    rw [show getClientIP reqDot = "1.2.3.4" from rfl, hsr3]
    rfl
  simp [h1, h2, h3]

/-- Witness for C3 at T0 = 1000 ms. -/
theorem c3_scenario_witness :
    (let r1 := handler reqDot 1000 [] freshFileWorld
     let r2 := handler reqDot (1000 + 10000) r1.map r1.world
     let r3 := handler reqDot (1000 + 70000) r2.map r2.world
     r1.count = .int 1 ∧ r2.count = .int 1 ∧ r3.count = .int 2) :=
  c3_scenario 1000 (by decide)

/-- C6: `increment()` computes next = getCount() + 1, persists next via
`setCount`, and returns next; and on a backend reading 0 (fresh, no stored
value), k + 1 sequential increments succeed and return 1, 2, …, k + 1, the
last returning exactly k + 1 and leaving the counter at k + 1. -/
theorem c6_increment (w : World) :
    (∀ i : Int, getCount w = .ok (.int i) →
      ∃ w', setCount (.int (i + 1)) w = .ok (true, w') ∧
        increment w = .ok (.int (i + 1), w')) ∧
    (getCount w = .ok (.int 0) → ∀ k : Nat,
      ∃ w', incSeq (k + 1) w = .ok (.int ((k : Int) + 1), w') ∧
        getCount w' = .ok (.int ((k : Int) + 1))) := by
  constructor
  · intro i h
    obtain ⟨w', hset⟩ := setCount_always_ok (.int (i + 1)) w
    refine ⟨w', hset, ?_⟩
    simp only [increment, h, jsAdd1]
    rw [hset]
  · intro h0 k
    induction k with
    | zero =>
      obtain ⟨w', hinc, hget⟩ := increment_step w 0 h0
      refine ⟨w', ?_, ?_⟩
      · rw [show incSeq 1 w = increment w from rfl]
        simpa using hinc
      · simpa using hget
    | succ k ih =>
      obtain ⟨w', hseq, hget⟩ := ih
      obtain ⟨w'', hinc, hget'⟩ := increment_step w' ((k : Int) + 1) hget
      have hcast : ((k + 1 : Nat) : Int) + 1 = ((k : Int) + 1) + 1 := by push_cast; ring
      have hstep : incSeq (k + 1 + 1) w =
          (match incSeq (k + 1) w with
           | .error e => .error e
           | .ok (_, w') => increment w') := rfl
      refine ⟨w'', ?_, ?_⟩
      · rw [hcast, hstep, hseq]
        exact hinc
      · rw [hcast]
        exact hget'

/-- Witness for C6: three sequential increments on the fresh local-file
backend return 3 at the end and leave the counter at 3. -/
theorem c6_increment_witness :
    ∃ w', incSeq 3 freshFileWorld = .ok (.int 3, w') ∧
      getCount w' = .ok (.int 3) :=
  (c6_increment freshFileWorld).2 rfl 2

/-- C7: `getCount()` on a backend with no prior stored value returns 0 for
both variants — a missing local file (as opposed to any other filesystem
failure, which is rethrown as an error) yields 0, and an HTTP 404 from the
durable store yields 0; neither absent-value case is an error. -/
theorem c7_zero_default (w : World) :
    (hasKVConfig w.env = false → w.file = .absent → getCount w = .ok (.int 0)) ∧
    (hasKVConfig w.env = false → w.file = .ioFault → getCount w = .error .fsError) ∧
    (hasKVConfig w.env = true → w.kv = none → getCount w = .ok (.int 0)) := by
  refine ⟨?_, ?_, ?_⟩
  · intro hkv hf
    simp only [getCount, hkv, Bool.false_eq_true, if_false]
    rw [hf]
    rfl
  · intro hkv hf
    simp only [getCount, hkv, Bool.false_eq_true, if_false]
    rw [hf]
    rfl
  · intro hkv hk
    simp only [getCount, hkv, if_true]
    rw [hk]
    cases hsdk : w.sdkLoaded <;> rfl

/-- Witness for C7: fresh local-file backend and fresh configured durable
backend both read 0. -/
theorem c7_zero_default_witness :
    getCount freshFileWorld = .ok (.int 0) ∧
    getCount ⟨⟨some "u", some "t", none, none⟩, false, none, .absent⟩ = .ok (.int 0) :=
  ⟨(c7_zero_default freshFileWorld).1 rfl rfl,
   (c7_zero_default ⟨⟨some "u", some "t", none, none⟩, false, none, .absent⟩).2.2 rfl rfl⟩

/-- C8: round-trip law — for every integer n ≥ 0, after a successful
`setCount(n)` on a backend instance (overwriting whatever was stored), a
subsequent `getCount()` on the same backend with no intervening writes
returns exactly n. -/
theorem c8_roundtrip (n : Int) (_hn : 0 ≤ n) (w w' : World) (b : Bool)
    (h : setCount (.int n) w = .ok (b, w')) : getCount w' = .ok (.int n) :=
  getCount_after_setCount n w w' b h

/-- Witness for C8 at n = 5 on the local-file backend. -/
theorem c8_roundtrip_witness :
    getCount ⟨envNone, false, none, .valid (.obj [("count", .num 5)])⟩ = .ok (.int 5) :=
  c8_roundtrip 5 (by decide) freshFileWorld
    ⟨envNone, false, none, .valid (.obj [("count", .num 5)])⟩ true rfl

/-- C9: on every call to `getCount` or `setCount`, the backend choice is the
call-time value of `hasKVConfig` on the environment given with the call (no
cached decision), and `hasKVConfig` holds exactly when both values of the
standard pair are truthy or both values of the legacy pair are truthy,
checked in that order. -/
theorem c9_backend_selection (w : World) :
    hasKVConfig w.env =
      ((jsStrTruthy w.env.kvRestApiUrl && jsStrTruthy w.env.kvRestApiToken) ||
       (jsStrTruthy w.env.vercelRestApiUrl && jsStrTruthy w.env.vercelRestApiToken)) ∧
    getCount w =
      (if hasKVConfig w.env then readFromKV w.sdkLoaded w.kv else readFromFile w.file) ∧
    ∀ c : JsNum, setCount c w =
      (if hasKVConfig w.env then
        (writeToKV w.sdkLoaded c w.kv).map (fun p => (p.1, { w with kv := p.2 }))
       else
        (writeToFile c w.file).map (fun p => (p.1, { w with file := p.2 }))) := by
  refine ⟨?_, rfl, fun c => rfl⟩
  by_cases h1 : (jsStrTruthy w.env.kvRestApiUrl && jsStrTruthy w.env.kvRestApiToken) = true <;>
    by_cases h2 : (jsStrTruthy w.env.vercelRestApiUrl &&
      jsStrTruthy w.env.vercelRestApiToken) = true <;>
    simp [hasKVConfig, h1, h2]

/-- C10 counterexample: at absolute time 0, a request admitted against a
failing backend stores the falsy timestamp 0, and the retry 1 ms later is
admitted again — not suppressed as the claim states. -/
theorem c10_counterexample :
    (handler reqDot 0 [] corruptFileWorld).status = 500 ∧
    (handler reqDot 0 [] corruptFileWorld).map = [("1.2.3.4", 0)] ∧
    (shouldRateLimit "1.2.3.4" 1 (handler reqDot 0 [] corruptFileWorld).map).1 = false :=
  ⟨rfl, rfl, rfl⟩

/-- C10 amended: the admission decision is committed before any storage
operation runs.  If a request admitted at time t ≠ 0 hits a backend error
inside `increment()`, the handler serves status 500, the backend state is
unchanged (the mutation is not retried) and the admission record keeps the
new timestamp t (no rollback), so any retry from the same identifier within
the 60 s window is suppressed.  At t = 0 exactly, the kept timestamp is
falsy and a retry is admitted instead (see the counterexample). -/
theorem c10_admission_committed (t : Int) (ht : t ≠ 0) :
    (handler reqDot t [] corruptFileWorld).status = 500 ∧
    (handler reqDot t [] corruptFileWorld).world = corruptFileWorld ∧
    (handler reqDot t [] corruptFileWorld).map = [("1.2.3.4", t)] ∧
    (∀ t' : Int, t' - t < RATE_LIMIT_WINDOW →
      (shouldRateLimit "1.2.3.4" t' (handler reqDot t [] corruptFileWorld).map).1 = true) := by
  have h1 : handler reqDot t [] corruptFileWorld =
      ⟨500, .int 0, [("1.2.3.4", t)], corruptFileWorld⟩ := rfl
  refine ⟨by simp [h1], by simp [h1], by simp [h1], ?_⟩
  intro t' hlt
  simp only [h1]
  have hg : RateMap.get [("1.2.3.4", t)] "1.2.3.4" = some t := by simp [RateMap.get]
  simp only [shouldRateLimit, hg, if_neg ht, if_pos hlt]

/-- Witness for C10 at t = 5 with a retry at t = 10. -/
theorem c10_admission_committed_witness :
    (handler reqDot 5 [] corruptFileWorld).status = 500 ∧
    (shouldRateLimit "1.2.3.4" 10 (handler reqDot 5 [] corruptFileWorld).map).1 = true :=
  ⟨(c10_admission_committed 5 (by decide)).1,
   (c10_admission_committed 5 (by decide)).2.2.2 10 (by decide)⟩

end VisitCounter
